import Mathlib

/-!
Shallow embedding of the behavioral-inference core of HydraESP AI Edition:
the sensor-data record, the AI behavioral states, the inference function
`analyze_behavior`, the momentum update `update_learning_metrics`, the
engine cycle `ai_cycle` (the body of `ai_task`'s loop), and the
scan-result post-processing `process_scan_results`.

Unsigned C fields are modelled as `Nat`, signed dBm fields as `Int`.
All arithmetic in the embedded code is explicitly clamped in the source
(`min(_, 100)`, `max((int32_t)_ - k, 0)`, guarded subtraction), and the
clamped quantities stay far below 2^32, so no modular wrap-around is
reachable and `Nat`/`Int` arithmetic is faithful.
-/

/-- The closed enumeration `ai_state_t` from ai_states.h. -/
inductive AiState where
  | idle
  | sniffing
  | tracking
  | learning
  | excited
  | sleeping
  | error
  | updating
deriving DecidableEq, Repr

/-- The `sensor_data_t` record from ai_states.h. -/
structure SensorData where
  wifi_networks_count : Nat
  wifi_signal_strength : Int
  ble_devices_count : Nat
  ble_signal_strength : Int
  free_memory : Nat
  uptime_seconds : Nat
  sd_card_present : Bool
  user_interaction : Bool
deriving DecidableEq, Repr

/-- `LOW_MEMORY_THRESHOLD` from config.h. -/
def LOW_MEMORY_THRESHOLD : Nat := 10240

/-- `HIGH_WIFI_ACTIVITY_THRESHOLD` from config.h. -/
def HIGH_WIFI_ACTIVITY_THRESHOLD : Nat := 10

/-- `STRONG_BLE_SIGNAL_THRESHOLD` from config.h (dBm). -/
def STRONG_BLE_SIGNAL_THRESHOLD : Int := -50

/-- `AI_UPDATE_INTERVAL` from config.h (ms). -/
def AI_UPDATE_INTERVAL : Nat := 200

/-- Capacity of `ai_state_queue` (`xQueueCreate(10, ...)` in main.cpp). -/
def QUEUE_CAPACITY : Nat := 10

/-- The mutable state owned by the AI task: the global `current_ai_state`
plus the statics `previous_state`, `state_duration`, `excitement_level`,
`learning_progress` of ai_task.cpp. -/
structure EngineState where
  current_ai_state : AiState
  previous_state : AiState
  state_duration : Nat
  excitement_level : Nat
  learning_progress : Nat
deriving DecidableEq, Repr

/-- `max((int32_t)value - step, 0)` from ai_task.cpp: a decrement clamped
at zero. `Int.toNat` sends every negative value to 0, which is exactly the
`max(_, 0)` in the source. -/
def clampedSub (value step : Nat) : Nat := ((value : Int) - (step : Int)).toNat

/-- `analyze_behavior` from ai_task.cpp. It reads the snapshot `data`, the
wall-clock `millis`, and the engine state; it returns the selected next
state together with the engine state whose `excitement_level` /
`learning_progress` statics reflect the in-branch mutations. The
decision list is translated branch for branch, in source order. -/
def analyze_behavior (data : SensorData) (millis : Nat) (s : EngineState) :
    AiState × EngineState :=
  -- Check for error conditions first
  if data.free_memory < LOW_MEMORY_THRESHOLD then
    (AiState.error, s)
  -- Check for high activity states
  else if HIGH_WIFI_ACTIVITY_THRESHOLD ≤ data.wifi_networks_count then
    let e := min (s.excitement_level + 5) 100
    let s' := { s with excitement_level := e }
    if 80 < e then (AiState.excited, s') else (AiState.sniffing, s')
  -- Check for BLE tracking mode
  else if 5 < data.ble_devices_count ∧
      STRONG_BLE_SIGNAL_THRESHOLD < data.ble_signal_strength then
    (AiState.tracking, s)
  -- Learning state when processing data
  else if s.current_ai_state = AiState.sniffing ∧ 5000 < s.state_duration then
    (AiState.learning, { s with learning_progress := min (s.learning_progress + 10) 100 })
  -- Sleep state during low activity
  else if data.wifi_networks_count = 0 ∧ data.ble_devices_count = 0 ∧
      data.user_interaction = false ∧ 60000 < s.state_duration then
    (AiState.sleeping, { s with excitement_level := clampedSub s.excitement_level 2 })
  else
    -- Gradually reduce excitement over time
    let s' := if millis % 10000 = 0
      then { s with excitement_level := clampedSub s.excitement_level 1 }
      else s
    -- Default to idle state
    (AiState.idle, s')

/-- `update_learning_metrics` from ai_task.cpp: state-entry momentum
adjustment followed by the unconditional caps at 100. -/
def update_learning_metrics (new_state : AiState) (s : EngineState) : EngineState :=
  let s' :=
    match new_state with
    | AiState.learning => { s with learning_progress := s.learning_progress + 5 }
    | AiState.excited => { s with excitement_level := min (s.excitement_level + 10) 100 }
    | AiState.sleeping =>
        if 20 < s.learning_progress
        then { s with learning_progress := s.learning_progress - 2 }
        else s
    | _ => s
  -- Cap metrics at reasonable values
  { s' with learning_progress := min s'.learning_progress 100,
            excitement_level := min s'.excitement_level 100 }

/-- `xQueueSend` on the bounded `ai_state_queue`: appends when the queue
has room and reports success, otherwise leaves the queue unchanged and
reports failure. -/
def queueSend (q : List AiState) (x : AiState) : List AiState × Bool :=
  if q.length < QUEUE_CAPACITY then (q ++ [x], true) else (q, false)

/-- One iteration of the `ai_task` loop from ai_task.cpp. Inputs: the
result of the snapshot attempt (`none` when `xSemaphoreTake` timed out),
the wall clock, the engine state, and the downstream queue. Output: the
new engine state, the new queue, and the `log_state_change` record
(`some (old, new)` exactly when the log call ran). On snapshot
failure the body hits `continue`: nothing is read, written or sent. -/
def ai_cycle (snapshot : Option SensorData) (millis : Nat)
    (s : EngineState) (q : List AiState) :
    EngineState × List AiState × Option (AiState × AiState) :=
  match snapshot with
  | none => (s, q, none)
  | some data =>
    let r := analyze_behavior data millis s
    let new_state := r.1
    let s1 := r.2
    if new_state ≠ s.current_ai_state then
      let q1 := (queueSend q new_state).1
      let s2 := update_learning_metrics new_state s1
      ({ s2 with previous_state := s.current_ai_state,
                 current_ai_state := new_state,
                 state_duration := 0 },
       q1, some (s.current_ai_state, new_state))
    else
      ({ s1 with state_duration := s1.state_duration + AI_UPDATE_INTERVAL }, q, none)

/-- Run the engine over a list of cycles, each cycle supplying its
snapshot result and wall clock. -/
def run_cycles (inputs : List (Option SensorData × Nat))
    (s : EngineState) (q : List AiState) : EngineState × List AiState :=
  match inputs with
  | [] => (s, q)
  | (snap, ms) :: rest =>
      let r := ai_cycle snap ms s q
      run_cycles rest r.1 r.2.1

/-- `process_scan_results` from scan_task.cpp: when the mutex is acquired,
refresh `uptime_seconds` from the wall clock and recompute
`user_interaction` from the wireless counts; on lock timeout nothing is
written. -/
def process_scan_results (lock_ok : Bool) (millis : Nat) (g : SensorData) :
    SensorData :=
  if lock_ok then
    { g with
      uptime_seconds := millis / 1000,
      user_interaction :=
        decide (HIGH_WIFI_ACTIVITY_THRESHOLD < g.wifi_networks_count) ||
        decide (10 < g.ble_devices_count) }
  else g

/-- C1: a snapshot with `free_memory` below the low-memory threshold makes
`analyze_behavior` select `Error`, whatever the other fields, the wall
clock and the carried-over momentum state are. -/
theorem low_memory_forces_error (data : SensorData) (millis : Nat)
    (s : EngineState) (h : data.free_memory < LOW_MEMORY_THRESHOLD) :
    (analyze_behavior data millis s).1 = AiState.error := by
  simp [analyze_behavior, h]

/-- Witness for C1: memory 5000 (threshold 10240) yields `Error` even with
50 WiFi networks visible. -/
theorem low_memory_forces_error_witness :
    (5000 : Nat) < LOW_MEMORY_THRESHOLD ∧
    (analyze_behavior
      { wifi_networks_count := 50, wifi_signal_strength := -30,
        ble_devices_count := 50, ble_signal_strength := -30,
        free_memory := 5000, uptime_seconds := 1000,
        sd_card_present := true, user_interaction := true }
      0
      { current_ai_state := AiState.sniffing, previous_state := AiState.idle,
        state_duration := 99999, excitement_level := 100,
        learning_progress := 100 }).1 = AiState.error :=
  ⟨by decide, low_memory_forces_error _ 0 _ (by decide)⟩

/-- C3: a cycle whose snapshot attempt fails (mutex timeout) leaves the
whole engine state — current state, dwell time, excitement, learning
progress — and the downstream queue unchanged, and logs no transition. -/
theorem snapshot_timeout_skips_cycle (millis : Nat) (s : EngineState)
    (q : List AiState) :
    ai_cycle none millis s q = (s, q, none) := rfl

/-- C4: with memory OK and the WiFi count at or above the high-activity
threshold, `analyze_behavior` sets excitement to `min (old + 5) 100` and
selects `Excited` exactly when that clamped value exceeds 80, otherwise
`Sniffing`; signal strength plays no role. -/
theorem high_wifi_selects_excited_or_sniffing (data : SensorData)
    (millis : Nat) (s : EngineState)
    (hmem : ¬ data.free_memory < LOW_MEMORY_THRESHOLD)
    (hwifi : HIGH_WIFI_ACTIVITY_THRESHOLD ≤ data.wifi_networks_count) :
    (analyze_behavior data millis s).2.excitement_level
        = min (s.excitement_level + 5) 100 ∧
    (analyze_behavior data millis s).1
        = (if 80 < min (s.excitement_level + 5) 100
           then AiState.excited else AiState.sniffing) := by
  simp only [analyze_behavior, if_neg hmem, if_pos hwifi]
  by_cases h : 80 < min (s.excitement_level + 5) 100 <;> simp [h]

/-- Witness for C4: excitement 78 with 12 networks visible clamps to 83
and selects `Excited`. -/
theorem high_wifi_selects_excited_or_sniffing_witness :
    ((analyze_behavior
      { wifi_networks_count := 12, wifi_signal_strength := -90,
        ble_devices_count := 0, ble_signal_strength := -100,
        free_memory := 50000, uptime_seconds := 100,
        sd_card_present := false, user_interaction := false }
      0
      { current_ai_state := AiState.sniffing, previous_state := AiState.idle,
        state_duration := 1000, excitement_level := 78,
        learning_progress := 0 }).2.excitement_level = min (78 + 5) 100 ∧
     (analyze_behavior
      { wifi_networks_count := 12, wifi_signal_strength := -90,
        ble_devices_count := 0, ble_signal_strength := -100,
        free_memory := 50000, uptime_seconds := 100,
        sd_card_present := false, user_interaction := false }
      0
      { current_ai_state := AiState.sniffing, previous_state := AiState.idle,
        state_duration := 1000, excitement_level := 78,
        learning_progress := 0 }).1
        = (if 80 < min (78 + 5) 100 then AiState.excited else AiState.sniffing)) :=
  high_wifi_selects_excited_or_sniffing _ 0 _ (by decide) (by decide)

/-- C5: when rules 1-3 do not match, `analyze_behavior` selects `Learning`
exactly when the previous selected state was `Sniffing` and the dwell time
exceeds 5000 ms, in which case learning progress becomes
`min (old + 10) 100`; no other condition yields `Learning`. -/
theorem learning_only_after_sniffing_dwell (data : SensorData)
    (millis : Nat) (s : EngineState)
    (hmem : ¬ data.free_memory < LOW_MEMORY_THRESHOLD)
    (hwifi : ¬ HIGH_WIFI_ACTIVITY_THRESHOLD ≤ data.wifi_networks_count)
    (hble : ¬ (5 < data.ble_devices_count ∧
        STRONG_BLE_SIGNAL_THRESHOLD < data.ble_signal_strength)) :
    ((analyze_behavior data millis s).1 = AiState.learning ↔
      (s.current_ai_state = AiState.sniffing ∧ 5000 < s.state_duration)) ∧
    ((s.current_ai_state = AiState.sniffing ∧ 5000 < s.state_duration) →
      (analyze_behavior data millis s).2.learning_progress
        = min (s.learning_progress + 10) 100) := by
  simp only [analyze_behavior, if_neg hmem, if_neg hwifi, if_neg hble]
  by_cases h4 : s.current_ai_state = AiState.sniffing ∧ 5000 < s.state_duration
  · simp [h4]
  · simp only [if_neg h4]
    refine ⟨?_, fun h => absurd h h4⟩
    by_cases h5 : data.wifi_networks_count = 0 ∧ data.ble_devices_count = 0 ∧
        data.user_interaction = false ∧ 60000 < s.state_duration
    · simp [h5, h4]
    · simp [h5, h4]

/-- Witness for C5: no wireless activity, previous state `Sniffing`, dwell
6000 ms — the selection is `Learning` and progress rises 40 → 50. -/
theorem learning_only_after_sniffing_dwell_witness :
    (((analyze_behavior
      { wifi_networks_count := 0, wifi_signal_strength := -100,
        ble_devices_count := 0, ble_signal_strength := -100,
        free_memory := 50000, uptime_seconds := 100,
        sd_card_present := false, user_interaction := false }
      0
      { current_ai_state := AiState.sniffing, previous_state := AiState.idle,
        state_duration := 6000, excitement_level := 10,
        learning_progress := 40 }).1 = AiState.learning ↔
      (AiState.sniffing = AiState.sniffing ∧ (5000 : Nat) < 6000)) ∧
    ((AiState.sniffing = AiState.sniffing ∧ (5000 : Nat) < 6000) →
      (analyze_behavior
      { wifi_networks_count := 0, wifi_signal_strength := -100,
        ble_devices_count := 0, ble_signal_strength := -100,
        free_memory := 50000, uptime_seconds := 100,
        sd_card_present := false, user_interaction := false }
      0
      { current_ai_state := AiState.sniffing, previous_state := AiState.idle,
        state_duration := 6000, excitement_level := 10,
        learning_progress := 40 }).2.learning_progress = min (40 + 10) 100)) :=
  learning_only_after_sniffing_dwell _ 0 _ (by decide) (by decide) (by decide)

/-- C6: when rules 1-4 do not match, `analyze_behavior` selects `Sleeping`
exactly when both wireless counts are zero, the interaction flag is false,
and the dwell time (not the uptime) exceeds 60000 ms, in which case
excitement drops by 2 clamped at 0. -/
theorem sleeping_only_when_inactive (data : SensorData) (millis : Nat)
    (s : EngineState)
    (hmem : ¬ data.free_memory < LOW_MEMORY_THRESHOLD)
    (hwifi : ¬ HIGH_WIFI_ACTIVITY_THRESHOLD ≤ data.wifi_networks_count)
    (hble : ¬ (5 < data.ble_devices_count ∧
        STRONG_BLE_SIGNAL_THRESHOLD < data.ble_signal_strength))
    (hlearn : ¬ (s.current_ai_state = AiState.sniffing ∧ 5000 < s.state_duration)) :
    ((analyze_behavior data millis s).1 = AiState.sleeping ↔
      (data.wifi_networks_count = 0 ∧ data.ble_devices_count = 0 ∧
       data.user_interaction = false ∧ 60000 < s.state_duration)) ∧
    ((data.wifi_networks_count = 0 ∧ data.ble_devices_count = 0 ∧
       data.user_interaction = false ∧ 60000 < s.state_duration) →
      (analyze_behavior data millis s).2.excitement_level
        = clampedSub s.excitement_level 2) := by
  simp only [analyze_behavior, if_neg hmem, if_neg hwifi, if_neg hble, if_neg hlearn]
  by_cases h5 : data.wifi_networks_count = 0 ∧ data.ble_devices_count = 0 ∧
      data.user_interaction = false ∧ 60000 < s.state_duration
  · simp [h5]
  · simp only [if_neg h5]
    refine ⟨?_, fun h => absurd h h5⟩
    constructor
    · intro h
      by_cases hm : millis % 10000 = 0 <;> simp [hm] at h
    · intro h
      exact absurd h h5

/-- Witness for C6: all-zero activity, no interaction, dwell 61000 ms from
`Idle` — the selection is `Sleeping` and excitement drops 10 → 8. -/
theorem sleeping_only_when_inactive_witness :
    (((analyze_behavior
      { wifi_networks_count := 0, wifi_signal_strength := -100,
        ble_devices_count := 0, ble_signal_strength := -100,
        free_memory := 50000, uptime_seconds := 100,
        sd_card_present := false, user_interaction := false }
      0
      { current_ai_state := AiState.idle, previous_state := AiState.idle,
        state_duration := 61000, excitement_level := 10,
        learning_progress := 0 }).1 = AiState.sleeping ↔
      ((0 : Nat) = 0 ∧ (0 : Nat) = 0 ∧ false = false ∧ (60000 : Nat) < 61000)) ∧
    (((0 : Nat) = 0 ∧ (0 : Nat) = 0 ∧ false = false ∧ (60000 : Nat) < 61000) →
      (analyze_behavior
      { wifi_networks_count := 0, wifi_signal_strength := -100,
        ble_devices_count := 0, ble_signal_strength := -100,
        free_memory := 50000, uptime_seconds := 100,
        sd_card_present := false, user_interaction := false }
      0
      { current_ai_state := AiState.idle, previous_state := AiState.idle,
        state_duration := 61000, excitement_level := 10,
        learning_progress := 0 }).2.excitement_level = clampedSub 10 2)) :=
  sleeping_only_when_inactive _ 0 _ (by decide) (by decide) (by decide) (by decide)

/-- C7: when none of the five rules match, `analyze_behavior` selects
`Idle`; moreover no input whatsoever makes it select `Updating` — its
range is confined to the states of the decision list. -/
theorem default_branch_is_idle :
    (∀ (data : SensorData) (millis : Nat) (s : EngineState),
      ¬ data.free_memory < LOW_MEMORY_THRESHOLD →
      ¬ HIGH_WIFI_ACTIVITY_THRESHOLD ≤ data.wifi_networks_count →
      ¬ (5 < data.ble_devices_count ∧
          STRONG_BLE_SIGNAL_THRESHOLD < data.ble_signal_strength) →
      ¬ (s.current_ai_state = AiState.sniffing ∧ 5000 < s.state_duration) →
      ¬ (data.wifi_networks_count = 0 ∧ data.ble_devices_count = 0 ∧
          data.user_interaction = false ∧ 60000 < s.state_duration) →
      (analyze_behavior data millis s).1 = AiState.idle) ∧
    (∀ (data : SensorData) (millis : Nat) (s : EngineState),
      (analyze_behavior data millis s).1 ≠ AiState.updating) := by
  constructor
  · intro data millis s h1 h2 h3 h4 h5
    simp [analyze_behavior, if_neg h1, if_neg h2, if_neg h3, if_neg h4, if_neg h5]
  · intro data millis s
    simp only [analyze_behavior]
    split_ifs <;> simp

/-- Witness for C7: the spec scenario — no networks, no BLE devices, but
`user_interaction = true` blocks the sleep rule — yields `Idle`. -/
theorem default_branch_is_idle_witness :
    (analyze_behavior
      { wifi_networks_count := 0, wifi_signal_strength := -100,
        ble_devices_count := 0, ble_signal_strength := -100,
        free_memory := 50000, uptime_seconds := 100,
        sd_card_present := false, user_interaction := true }
      123
      { current_ai_state := AiState.idle, previous_state := AiState.idle,
        state_duration := 70000, excitement_level := 10,
        learning_progress := 0 }).1 = AiState.idle :=
  default_branch_is_idle.1 _ 123 _ (by decide) (by decide) (by decide)
    (by decide) (by decide)

/-- Counterexample to C8: at wall clock 10000 ms (a full decay interval,
and exactly divisible by it) the Tracking branch leaves excitement at 50
instead of decaying it; and on the default Idle branch at wall clock
10001 ms (interval elapsed, but not exactly divisible) excitement also
stays at 50. The decay is therefore neither applied on every branch nor
whenever an interval has elapsed. -/
theorem decay_not_applied_on_every_branch :
    ((analyze_behavior
      { wifi_networks_count := 0, wifi_signal_strength := -100,
        ble_devices_count := 7, ble_signal_strength := -40,
        free_memory := 50000, uptime_seconds := 100,
        sd_card_present := false, user_interaction := false }
      10000
      { current_ai_state := AiState.tracking, previous_state := AiState.idle,
        state_duration := 20000, excitement_level := 50,
        learning_progress := 0 }).1 = AiState.tracking ∧
     (analyze_behavior
      { wifi_networks_count := 0, wifi_signal_strength := -100,
        ble_devices_count := 7, ble_signal_strength := -40,
        free_memory := 50000, uptime_seconds := 100,
        sd_card_present := false, user_interaction := false }
      10000
      { current_ai_state := AiState.tracking, previous_state := AiState.idle,
        state_duration := 20000, excitement_level := 50,
        learning_progress := 0 }).2.excitement_level = 50) ∧
    ((analyze_behavior
      { wifi_networks_count := 0, wifi_signal_strength := -100,
        ble_devices_count := 0, ble_signal_strength := -100,
        free_memory := 50000, uptime_seconds := 100,
        sd_card_present := false, user_interaction := true }
      10001
      { current_ai_state := AiState.idle, previous_state := AiState.idle,
        state_duration := 9000, excitement_level := 50,
        learning_progress := 0 }).1 = AiState.idle ∧
     (analyze_behavior
      { wifi_networks_count := 0, wifi_signal_strength := -100,
        ble_devices_count := 0, ble_signal_strength := -100,
        free_memory := 50000, uptime_seconds := 100,
        sd_card_present := false, user_interaction := true }
      10001
      { current_ai_state := AiState.idle, previous_state := AiState.idle,
        state_duration := 9000, excitement_level := 50,
        learning_progress := 0 }).2.excitement_level = 50) := by
  decide

/-- C8 amended: the excitement decay (by 1, clamped at 0) runs only on the
default branch where no decision rule matched, and there only on cycles
whose wall-clock millisecond value is exactly divisible by 10000; the
branches that return `Error`, `Tracking` or `Learning` leave excitement
untouched. -/
theorem decay_only_on_default_branch :
    (∀ (data : SensorData) (millis : Nat) (s : EngineState),
      ¬ data.free_memory < LOW_MEMORY_THRESHOLD →
      ¬ HIGH_WIFI_ACTIVITY_THRESHOLD ≤ data.wifi_networks_count →
      ¬ (5 < data.ble_devices_count ∧
          STRONG_BLE_SIGNAL_THRESHOLD < data.ble_signal_strength) →
      ¬ (s.current_ai_state = AiState.sniffing ∧ 5000 < s.state_duration) →
      ¬ (data.wifi_networks_count = 0 ∧ data.ble_devices_count = 0 ∧
          data.user_interaction = false ∧ 60000 < s.state_duration) →
      (analyze_behavior data millis s).2.excitement_level
        = (if millis % 10000 = 0 then clampedSub s.excitement_level 1
           else s.excitement_level)) ∧
    (∀ (data : SensorData) (millis : Nat) (s : EngineState),
      ((analyze_behavior data millis s).1 = AiState.error ∨
       (analyze_behavior data millis s).1 = AiState.tracking ∨
       (analyze_behavior data millis s).1 = AiState.learning) →
      (analyze_behavior data millis s).2.excitement_level
        = s.excitement_level) := by
  constructor
  · intro data millis s h1 h2 h3 h4 h5
    simp only [analyze_behavior, if_neg h1, if_neg h2, if_neg h3, if_neg h4,
      if_neg h5]
    by_cases hm : millis % 10000 = 0 <;> simp [hm]
  · intro data millis s
    simp only [analyze_behavior]
    split_ifs <;> simp

/-- Witness for the amended C8: on the default branch with wall clock
exactly 20000 ms, excitement 50 decays to `clampedSub 50 1 = 49`. -/
theorem decay_only_on_default_branch_witness :
    (analyze_behavior
      { wifi_networks_count := 0, wifi_signal_strength := -100,
        ble_devices_count := 0, ble_signal_strength := -100,
        free_memory := 50000, uptime_seconds := 100,
        sd_card_present := false, user_interaction := true }
      20000
      { current_ai_state := AiState.idle, previous_state := AiState.idle,
        state_duration := 9000, excitement_level := 50,
        learning_progress := 0 }).2.excitement_level
      = (if (20000 : Nat) % 10000 = 0 then clampedSub 50 1 else 50) :=
  decay_only_on_default_branch.1 _ 20000 _ (by decide) (by decide) (by decide)
    (by decide) (by decide)

/-- The momentum invariant: both counters lie in [0,100]. The lower bound
is inherent to the `Nat` carrier, mirroring the explicit `max(_, 0)`
clamps of the source. -/
def InRange (s : EngineState) : Prop :=
  s.excitement_level ≤ 100 ∧ s.learning_progress ≤ 100

instance (s : EngineState) : Decidable (InRange s) := by
  unfold InRange; infer_instance

theorem clampedSub_le (value step : Nat) : clampedSub value step ≤ value := by
  unfold clampedSub; omega

theorem update_learning_metrics_range (new_state : AiState) (s : EngineState) :
    (update_learning_metrics new_state s).excitement_level ≤ 100 ∧
    (update_learning_metrics new_state s).learning_progress ≤ 100 := by
  unfold update_learning_metrics
  cases new_state <;> simp

theorem analyze_behavior_range (data : SensorData) (millis : Nat)
    (s : EngineState) (h : InRange s) :
    InRange (analyze_behavior data millis s).2 := by
  obtain ⟨he, hl⟩ := h
  have h2 := clampedSub_le s.excitement_level 2
  have h1 := clampedSub_le s.excitement_level 1
  unfold InRange
  simp only [analyze_behavior]
  split_ifs <;> constructor <;> simp_all <;> omega

theorem ai_cycle_range (snapshot : Option SensorData) (millis : Nat)
    (s : EngineState) (q : List AiState) (h : InRange s) :
    InRange (ai_cycle snapshot millis s q).1 := by
  cases snapshot with
  | none => exact h
  | some data =>
    have ha := analyze_behavior_range data millis s h
    have hu := update_learning_metrics_range (analyze_behavior data millis s).1
      (analyze_behavior data millis s).2
    unfold InRange at *
    simp only [ai_cycle]
    split_ifs <;> simp_all

/-- C2: starting from any momentum values in [0,100], after any number of
engine cycles — each cycle applying `analyze_behavior`'s in-branch
increments/decrements and, on a state change, `update_learning_metrics` —
excitement and learning progress are still in [0,100]. -/
theorem momentum_stays_in_range (inputs : List (Option SensorData × Nat))
    (s : EngineState) (q : List AiState) (h : InRange s) :
    InRange (run_cycles inputs s q).1 := by
  induction inputs generalizing s q with
  | nil => exact h
  | cons p rest ih =>
    obtain ⟨snap, ms⟩ := p
    simp only [run_cycles]
    exact ih _ _ (ai_cycle_range snap ms s q h)

/-- Witness for C2: a concrete three-cycle run (a high-activity snapshot,
a snapshot timeout, an all-quiet snapshot) from a saturated momentum state
keeps both counters in range. -/
theorem momentum_stays_in_range_witness :
    InRange { current_ai_state := AiState.idle, previous_state := AiState.idle,
              state_duration := 0, excitement_level := 100,
              learning_progress := 100 } ∧
    InRange (run_cycles
      [(some { wifi_networks_count := 20, wifi_signal_strength := -30,
               ble_devices_count := 0, ble_signal_strength := -100,
               free_memory := 50000, uptime_seconds := 10,
               sd_card_present := false, user_interaction := false }, 200),
       (none, 400),
       (some { wifi_networks_count := 0, wifi_signal_strength := -100,
               ble_devices_count := 0, ble_signal_strength := -100,
               free_memory := 50000, uptime_seconds := 10,
               sd_card_present := false, user_interaction := false }, 600)]
      { current_ai_state := AiState.idle, previous_state := AiState.idle,
        state_duration := 0, excitement_level := 100,
        learning_progress := 100 }
      []).1 :=
  ⟨by decide,
   momentum_stays_in_range _
     { current_ai_state := AiState.idle, previous_state := AiState.idle,
       state_duration := 0, excitement_level := 100,
       learning_progress := 100 }
     [] (by decide)⟩

/-- C9: when the selected state differs from `current_ai_state` and the
downstream queue is full, the cycle still runs to completion: the change
is logged, the momentum metrics are updated via `update_learning_metrics`,
`current_ai_state` becomes the new state, `state_duration` resets to 0 —
and the queue is unchanged, i.e. the event is simply absent downstream. -/
theorem full_queue_drops_event_only (data : SensorData) (millis : Nat)
    (s : EngineState) (q : List AiState)
    (hchange : (analyze_behavior data millis s).1 ≠ s.current_ai_state)
    (hfull : QUEUE_CAPACITY ≤ q.length) :
    ai_cycle (some data) millis s q =
      ({ update_learning_metrics (analyze_behavior data millis s).1
            (analyze_behavior data millis s).2 with
          previous_state := s.current_ai_state,
          current_ai_state := (analyze_behavior data millis s).1,
          state_duration := 0 },
       q, some (s.current_ai_state, (analyze_behavior data millis s).1)) := by
  unfold ai_cycle queueSend
  simp [hchange, Nat.not_lt.mpr hfull]

/-- Witness for C9: a low-memory snapshot flips `Idle` to `Error` while
the queue already holds its 10-element capacity; the cycle completes and
the queue is untouched. -/
theorem full_queue_drops_event_only_witness :
    ai_cycle
      (some { wifi_networks_count := 0, wifi_signal_strength := -100,
              ble_devices_count := 0, ble_signal_strength := -100,
              free_memory := 5000, uptime_seconds := 10,
              sd_card_present := false, user_interaction := false })
      0
      { current_ai_state := AiState.idle, previous_state := AiState.idle,
        state_duration := 400, excitement_level := 10, learning_progress := 10 }
      (List.replicate 10 AiState.idle) =
      ({ update_learning_metrics
            (analyze_behavior
              { wifi_networks_count := 0, wifi_signal_strength := -100,
                ble_devices_count := 0, ble_signal_strength := -100,
                free_memory := 5000, uptime_seconds := 10,
                sd_card_present := false, user_interaction := false }
              0
              { current_ai_state := AiState.idle, previous_state := AiState.idle,
                state_duration := 400, excitement_level := 10,
                learning_progress := 10 }).1
            (analyze_behavior
              { wifi_networks_count := 0, wifi_signal_strength := -100,
                ble_devices_count := 0, ble_signal_strength := -100,
                free_memory := 5000, uptime_seconds := 10,
                sd_card_present := false, user_interaction := false }
              0
              { current_ai_state := AiState.idle, previous_state := AiState.idle,
                state_duration := 400, excitement_level := 10,
                learning_progress := 10 }).2 with
          previous_state := AiState.idle,
          current_ai_state :=
            (analyze_behavior
              { wifi_networks_count := 0, wifi_signal_strength := -100,
                ble_devices_count := 0, ble_signal_strength := -100,
                free_memory := 5000, uptime_seconds := 10,
                sd_card_present := false, user_interaction := false }
              0
              { current_ai_state := AiState.idle, previous_state := AiState.idle,
                state_duration := 400, excitement_level := 10,
                learning_progress := 10 }).1,
          state_duration := 0 },
       List.replicate 10 AiState.idle,
       some (AiState.idle,
         (analyze_behavior
            { wifi_networks_count := 0, wifi_signal_strength := -100,
              ble_devices_count := 0, ble_signal_strength := -100,
              free_memory := 5000, uptime_seconds := 10,
              sd_card_present := false, user_interaction := false }
            0
            { current_ai_state := AiState.idle, previous_state := AiState.idle,
              state_duration := 400, excitement_level := 10,
              learning_progress := 10 }).1)) :=
  full_queue_drops_event_only _ 0 _ (List.replicate 10 AiState.idle)
    (by decide) (by decide)

/-- C10: after a scan-processing step that acquires the mutex,
`user_interaction` is a pure function of the wireless counts: true exactly
when more than 10 WiFi networks or more than 10 BLE devices were counted,
false otherwise — independent of its previous value. -/
theorem user_interaction_derived_from_counts (millis : Nat) (g : SensorData) :
    ((process_scan_results true millis g).user_interaction = true ↔
      (10 < g.wifi_networks_count ∨ 10 < g.ble_devices_count)) ∧
    (process_scan_results true millis g).user_interaction
      = (decide (10 < g.wifi_networks_count) || decide (10 < g.ble_devices_count)) := by
  simp [process_scan_results, HIGH_WIFI_ACTIVITY_THRESHOLD]
